import Mathlib

/-!
Verification of the ToDo-App task API (`src/app/api/todos/route.ts`).

The four HTTP handlers (GET / POST / PATCH / DELETE) are shallowly embedded
as pure Lean functions over an explicit store state.  JavaScript dynamic
values appearing in request bodies are modelled by `JSVal`; JavaScript
exceptions (thrown by `JSON.parse`, by calling `.trim()` on a non-string,
or by the Prisma store layer) are modelled by `Except Unit`.  Each handler
wraps its body in the `catch`-all of the source, mapping any error to the
operation's generic 500 response.

Timestamps are modelled as natural numbers supplied by an external clock
parameter `now`; record ids are strings supplied by an external generator,
matching Prisma's cuid generation.
-/

namespace TodoApp

/-- A JavaScript/JSON value, as produced by `await request.json()`. -/
inductive JSVal where
  | null : JSVal
  | bool (b : Bool) : JSVal
  | num (n : Nat) : JSVal
  | str (s : String) : JSVal
  | obj (fields : List (String × JSVal)) : JSVal
  | arr (elems : List JSVal) : JSVal

/-- First binding of a key in a JS object literal's field list. -/
def lookupField : List (String × JSVal) → String → Option JSVal
  | [], _ => none
  | (k', v) :: fs, k => if k' = k then some v else lookupField fs k

/-- JS property access used by destructuring `const { x } = body`:
`none` models the JS value `undefined` (absent field, or access on a
non-object primitive, which yields `undefined` rather than throwing). -/
def getField : JSVal → String → Option JSVal
  | .obj fs, k => lookupField fs k
  | _, _ => none

/-- JS truthiness of a value. -/
def truthy : JSVal → Bool
  | .null => false
  | .bool b => b
  | .num n => n != 0
  | .str s => s != ""
  | .obj _ => true
  | .arr _ => true

/-- JS truthiness with `none` standing for `undefined` (falsy). -/
def truthyOpt : Option JSVal → Bool
  | none => false
  | some v => truthy v

/-- JS `String.prototype.trim`: removes leading and trailing whitespace.
Modelled structurally on the character list so that it is evaluable. -/
def trimStr (s : String) : String :=
  ⟨((s.data.dropWhile Char.isWhitespace).reverse.dropWhile
      Char.isWhitespace).reverse⟩

/-- The JS call `v.trim()`: succeeds on strings, throws a `TypeError`
on every other value (`null`, numbers, booleans, objects, arrays). -/
def jsTrim : JSVal → Except Unit String
  | .str s => .ok (trimStr s)
  | _ => .error ()

/-- The JS expression `v?.trim() || null` from the source: `null` short-
circuits to `undefined` and then to `null`; a string is trimmed and an
empty trim result collapses to `null`; any other value throws when
`.trim()` is called on it. `none` is the stored-as-absent (`null`) case. -/
def jsOptTrimOrNull : JSVal → Except Unit (Option String)
  | .null => .ok none
  | .str s => .ok (if trimStr s = "" then none else some (trimStr s))
  | _ => .error ()

/-- Modelled from the spec: the Prisma schema
(`prisma/schema.prisma`) is not under `src/`; the record shape follows the
spec's data model (and the `Todo` interface in the UI component):
`description` is nullable, timestamps are set by the store. -/
structure Todo where
  id : String
  title : String
  description : Option String
  completed : Bool
  createdAt : Nat
  updatedAt : Nat
deriving DecidableEq, Repr

/-- The persisted table, in store-native insertion order. -/
abbrev Store := List Todo

/-- JSON serialization of a Task record as returned to the client. -/
def todoToJson (t : Todo) : JSVal :=
  .obj [("id", .str t.id),
        ("title", .str t.title),
        ("description", match t.description with
                        | some d => .str d
                        | none => .null),
        ("completed", .bool t.completed),
        ("createdAt", .num t.createdAt),
        ("updatedAt", .num t.updatedAt)]

/-- An HTTP response: a status code and a JSON body. -/
structure ApiResponse where
  status : Nat
  body : JSVal

/-- The `NextResponse.json({ error: msg }, { status })` shape. -/
def errBody (msg : String) : JSVal := .obj [("error", .str msg)]

/-- Ordering relation used by `findMany({ orderBy: { createdAt: 'desc' } })`. -/
def createdDesc (a b : Todo) : Prop := b.createdAt ≤ a.createdAt

instance : DecidableRel createdDesc := fun a b =>
  inferInstanceAs (Decidable (b.createdAt ≤ a.createdAt))

instance : IsTotal Todo createdDesc :=
  ⟨fun a b => Nat.le_total b.createdAt a.createdAt⟩

instance : IsTrans Todo createdDesc :=
  ⟨fun _ _ _ hab hbc => Nat.le_trans hbc hab⟩

/-- Modelled from the spec: the Prisma client's
`findMany({ orderBy: { createdAt: 'desc' } })` is not under `src/`; per the
spec it returns every record ordered by `createdAt` descending with ties
broken by store-native insertion order, i.e. a stable descending sort. -/
def findManyDesc (store : Store) : List Todo :=
  store.insertionSort createdDesc

/-- The update patch built by the PATCH handler: one tri-state field per
mutable attribute. `completed` keeps the raw JS value assigned by the
handler (the handler does not validate its type); `title` is already
trimmed; `description` is already normalized (`some none` = set to null). -/
structure UpdateData where
  completed : Option JSVal
  title : Option String
  description : Option (Option String)

/-- Modelled from the spec: the Prisma store's row update is not under
`src/`.  Per the spec and Prisma semantics: a non-boolean value supplied
for `completed` is a constraint violation (thrown failure); fields absent
from the patch are left untouched; `updatedAt` is refreshed to now. -/
def applyUpdate (d : UpdateData) (t : Todo) (now : Nat) : Except Unit Todo :=
  match d.completed with
  | none =>
      .ok { t with title := d.title.getD t.title,
                   description := d.description.getD t.description,
                   updatedAt := now }
  | some (.bool b) =>
      .ok { t with completed := b,
                   title := d.title.getD t.title,
                   description := d.description.getD t.description,
                   updatedAt := now }
  | some _ => .error ()

/-- Whether the JS value supplied as `where: { id }` matches a record id:
Prisma matches only a string equal to the stored id (any other value is a
query validation failure, absorbed here into the not-found error since
both are thrown failures). -/
def idMatches (v : JSVal) (i : String) : Bool :=
  match v with
  | .str s => s = i
  | _ => false

/-- Modelled from the spec: `prisma.todo.update({ where: { id }, data })`
is not under `src/`.  It throws when no record has the target id (NotFound),
otherwise replaces the unique matching record and returns it. -/
def prismaUpdate (store : Store) (idv : JSVal) (d : UpdateData) (now : Nat) :
    Except Unit (Todo × Store) :=
  match store with
  | [] => .error ()
  | t :: ts =>
      if idMatches idv t.id then
        match applyUpdate d t now with
        | .error e => .error e
        | .ok t' => .ok (t', t' :: ts)
      else
        match prismaUpdate ts idv d now with
        | .error e => .error e
        | .ok (t', ts') => .ok (t', t :: ts')

/-- Modelled from the spec: `prisma.todo.delete({ where: { id } })` is not
under `src/`.  It throws when no record has the target id, otherwise
removes the unique matching record. -/
def prismaDelete (store : Store) (i : String) : Except Unit Store :=
  match store with
  | [] => .error ()
  | t :: ts =>
      if t.id = i then .ok ts
      else
        match prismaDelete ts i with
        | .error e => .error e
        | .ok ts' => .ok (t :: ts')

/-- Modelled from the spec: `prisma.todo.create({ data })` is not under
`src/`.  The store assigns a fresh id (never reused: a collision is a
constraint violation), defaults `completed` to false and sets both
timestamps to now, appending the record in insertion order. -/
def prismaCreate (store : Store) (newId : String)
    (title : String) (description : Option String) (now : Nat) :
    Except Unit (Todo × Store) :=
  if store.any (fun t => t.id = newId) then .error ()
  else
    let todo : Todo :=
      { id := newId, title := title, description := description,
        completed := false, createdAt := now, updatedAt := now }
    .ok (todo, store ++ [todo])

/-- The POST line `description: description?.trim() || null`: an absent
(`undefined`) field short-circuits to `null`. -/
def postDescr (v : Option JSVal) : Except Unit (Option String) :=
  match v with
  | none => .ok none
  | some dv => jsOptTrimOrNull dv

/-- The PATCH line `if (title !== undefined) updateData.title = title.trim()`:
`none` means the field stays out of the patch; a present value must survive
`.trim()`. -/
def patchTitle (v : Option JSVal) : Except Unit (Option String) :=
  match v with
  | none => .ok none
  | some tv => (jsTrim tv).map some

/-- The PATCH line
`if (description !== undefined) updateData.description = description?.trim() || null`. -/
def patchDescr (v : Option JSVal) : Except Unit (Option (Option String)) :=
  match v with
  | none => .ok none
  | some dv => (jsOptTrimOrNull dv).map some

/-! ### The four handlers, translated from `src/app/api/todos/route.ts`.

Each `run*` function is the `try` block; the handler proper wraps it,
turning any thrown error into the operation's generic 500 response.
`body?` is the outcome of `await request.json()`: `none` when the body is
not parseable as JSON (the parse throws inside the `try`). -/

/-- GET handler body: fetch all todos ordered by `createdAt` descending. -/
def runGet (store : Store) : Except Unit ApiResponse :=
  .ok { status := 200, body := .arr ((findManyDesc store).map todoToJson) }

/-- GET - Fetch all todos. -/
def handleGet (store : Store) : ApiResponse :=
  match runGet store with
  | .ok r => r
  | .error _ => { status := 500, body := errBody "Failed to fetch todos" }

/-- POST handler body.  Destructuring `const { title, description } = body`
throws on a `null` body; `!title || title.trim() === ''` first tests
truthiness (no throw), then calls `.trim()` (throws on a truthy
non-string). -/
def runPost (store : Store) (body? : Option JSVal) (newId : String)
    (now : Nat) : Except Unit (ApiResponse × Store) :=
  match body? with
  | none => .error ()
  | some .null => .error ()
  | some body =>
      let titleF := getField body "title"
      if ¬ truthyOpt titleF then
        .ok ({ status := 400, body := errBody "Title is required" }, store)
      else
        match titleF with
        | none => .error ()
        | some tv =>
            match jsTrim tv with
            | .error e => .error e
            | .ok tt =>
                if tt = "" then
                  .ok ({ status := 400, body := errBody "Title is required" },
                       store)
                else
                  match postDescr (getField body "description") with
                  | .error e => .error e
                  | .ok desc =>
                      match prismaCreate store newId tt desc now with
                      | .error e => .error e
                      | .ok (todo, store') =>
                          .ok ({ status := 201, body := todoToJson todo },
                               store')

/-- POST - Create a new todo. -/
def handlePost (store : Store) (body? : Option JSVal) (newId : String)
    (now : Nat) : ApiResponse × Store :=
  match runPost store body? newId now with
  | .ok r => r
  | .error _ =>
      ({ status := 500, body := errBody "Failed to create todo" }, store)

/-- PATCH handler body.  Builds the partial `updateData` object: a field is
copied only when the destructured value is not `undefined`; `title.trim()`
throws on a non-string (including `null`); `description?.trim() || null`
normalizes as in `jsOptTrimOrNull`. -/
def runPatch (store : Store) (body? : Option JSVal) (now : Nat) :
    Except Unit (ApiResponse × Store) :=
  match body? with
  | none => .error ()
  | some .null => .error ()
  | some body =>
      let idF := getField body "id"
      if ¬ truthyOpt idF then
        .ok ({ status := 400, body := errBody "Todo ID is required" }, store)
      else
        match patchTitle (getField body "title") with
        | .error e => .error e
        | .ok titleU =>
            match patchDescr (getField body "description") with
            | .error e => .error e
            | .ok descU =>
                let d : UpdateData :=
                  { completed := getField body "completed",
                    title := titleU, description := descU }
                match prismaUpdate store (idF.getD .null) d now with
                | .error e => .error e
                | .ok (t', store') =>
                    .ok ({ status := 200, body := todoToJson t' }, store')

/-- PATCH - Update a todo. -/
def handlePatch (store : Store) (body? : Option JSVal) (now : Nat) :
    ApiResponse × Store :=
  match runPatch store body? now with
  | .ok r => r
  | .error _ =>
      ({ status := 500, body := errBody "Failed to update todo" }, store)

/-- DELETE handler body.  The id comes from the query string:
`searchParams.get('id')` yields `null` (modelled `none`) when absent; a
present empty string is falsy and also rejected. -/
def runDelete (store : Store) (idParam : Option String) :
    Except Unit (ApiResponse × Store) :=
  match idParam with
  | none =>
      .ok ({ status := 400, body := errBody "Todo ID is required" }, store)
  | some s =>
      if s = "" then
        .ok ({ status := 400, body := errBody "Todo ID is required" }, store)
      else
        match prismaDelete store s with
        | .error e => .error e
        | .ok store' =>
            .ok ({ status := 200,
                   body := .obj [("message",
                                  .str "Todo deleted successfully")] },
                 store')

/-- DELETE - Delete a todo. -/
def handleDelete (store : Store) (idParam : Option String) :
    ApiResponse × Store :=
  match runDelete store idParam with
  | .ok r => r
  | .error _ =>
      ({ status := 500, body := errBody "Failed to delete todo" }, store)

/-- The record assembled by a successful create: trimmed title, normalized
description, `completed` defaulted to false, both timestamps set to now. -/
def createdTodo (newId tt : String) (desc : Option String) (now : Nat) : Todo :=
  { id := newId, title := tt, description := desc,
    completed := false, createdAt := now, updatedAt := now }

/-- The record produced by a successful partial update: each field is
replaced when a patch value for it is present and kept otherwise;
`createdAt` and `id` never change; `updatedAt` becomes now. -/
def patchedTodo (t : Todo) (c : Option Bool) (ti : Option String)
    (d : Option (Option String)) (now : Nat) : Todo :=
  { t with completed := c.getD t.completed,
           title := ti.getD t.title,
           description := d.getD t.description,
           updatedAt := now }

/-! ### Store-layer helper lemmas -/

theorem prismaUpdate_not_found (store : Store) (idv : JSVal) (d : UpdateData)
    (now : Nat) (h : ∀ u ∈ store, idMatches idv u.id = false) :
    prismaUpdate store idv d now = .error () := by
  induction store with
  | nil => rfl
  | cons u us ih =>
      have hu : idMatches idv u.id = false := h u (List.mem_cons_self u us)
      have hus := ih (fun x hx => h x (List.mem_cons_of_mem u hx))
      simp [prismaUpdate, hu, hus]

theorem prismaDelete_not_found (store : Store) (i : String)
    (h : ∀ u ∈ store, u.id ≠ i) :
    prismaDelete store i = .error () := by
  induction store with
  | nil => rfl
  | cons u us ih =>
      have hu : u.id ≠ i := h u (List.mem_cons_self u us)
      have hus := ih (fun x hx => h x (List.mem_cons_of_mem u hx))
      simp [prismaDelete, hu, hus]

theorem prismaUpdate_found (pre post : Store) (t t' : Todo) (idv : JSVal)
    (d : UpdateData) (now : Nat)
    (hpre : ∀ u ∈ pre, idMatches idv u.id = false)
    (hmatch : idMatches idv t.id = true)
    (happly : applyUpdate d t now = .ok t') :
    prismaUpdate (pre ++ t :: post) idv d now = .ok (t', pre ++ t' :: post) := by
  induction pre with
  | nil => simp [prismaUpdate, hmatch, happly]
  | cons u us ih =>
      have hu := hpre u (List.mem_cons_self u us)
      have hus := ih (fun x hx => hpre x (List.mem_cons_of_mem u hx))
      simp [prismaUpdate, hu, hus]

theorem prismaDelete_found (pre post : Store) (t : Todo)
    (hpre : ∀ u ∈ pre, u.id ≠ t.id) :
    prismaDelete (pre ++ t :: post) t.id = .ok (pre ++ post) := by
  induction pre with
  | nil => simp [prismaDelete]
  | cons u us ih =>
      have hu := hpre u (List.mem_cons_self u us)
      have hus := ih (fun x hx => hpre x (List.mem_cons_of_mem u hx))
      simp [prismaDelete, hu, hus]

theorem runPost_ok_status (store : Store) (body? : Option JSVal)
    (newId : String) (now : Nat) (r : ApiResponse) (s : Store)
    (h : runPost store body? newId now = .ok (r, s)) :
    r.status = 201 ∨ r.status = 400 := by
  unfold runPost prismaCreate at h
  iterate 7
    all_goals try split at h
    all_goals try simp at h
  all_goals
    first
      | exact h.elim
      | (obtain ⟨h1, h2⟩ := h
         subst h1
         simp)

theorem runPatch_ok_status (store : Store) (body? : Option JSVal)
    (now : Nat) (r : ApiResponse) (s : Store)
    (h : runPatch store body? now = .ok (r, s)) :
    r.status = 200 ∨ r.status = 400 := by
  unfold runPatch at h
  iterate 7
    all_goals try split at h
    all_goals try simp at h
  all_goals
    first
      | exact h.elim
      | (obtain ⟨h1, h2⟩ := h
         subst h1
         simp)

theorem runDelete_ok_status (store : Store) (idParam : Option String)
    (r : ApiResponse) (s : Store)
    (h : runDelete store idParam = .ok (r, s)) :
    r.status = 200 ∨ r.status = 400 := by
  unfold runDelete at h
  iterate 7
    all_goals try split at h
    all_goals try simp at h
  all_goals
    first
      | exact h.elim
      | (obtain ⟨h1, h2⟩ := h
         subst h1
         simp)

/-! ### Claim theorems -/

/-- C3: a create request whose `title` is missing, or is a string that trims
to empty, gets a 400 response with message "Title is required" and the
store is unchanged (the store layer is never reached). -/
theorem post_blank_title_rejected (store : Store) (fs : List (String × JSVal))
    (newId : String) (now : Nat)
    (h : lookupField fs "title" = none ∨
         ∃ s, lookupField fs "title" = some (.str s) ∧ trimStr s = "") :
    handlePost store (some (.obj fs)) newId now =
      ({ status := 400, body := errBody "Title is required" }, store) := by
  rcases h with h | ⟨s, hf, hs⟩
  · simp [handlePost, runPost, getField, truthyOpt, h]
  · by_cases hempty : s = ""
    · simp [handlePost, runPost, getField, truthyOpt, truthy, hf, hempty]
    · simp [handlePost, runPost, getField, truthyOpt, truthy, hf, hempty,
        jsTrim, hs]

/-- Witness for C3 at a whitespace-only title. -/
theorem post_blank_title_rejected_witness :
    handlePost [] (some (.obj [("title", .str "  ")])) "id1" 5 =
      ({ status := 400, body := errBody "Title is required" }, []) :=
  post_blank_title_rejected [] [("title", .str "  ")] "id1" 5
    (Or.inr ⟨"  ", rfl, by decide⟩)

/-- C8: a create or update request whose body is not parseable as JSON
(the parse throws inside the catch-all) yields the operation's generic 500
server-fault, not a 400, and leaves the store unchanged. -/
theorem malformed_body_is_500 (store : Store) (newId : String) (now : Nat) :
    handlePost store none newId now =
      ({ status := 500, body := errBody "Failed to create todo" }, store) ∧
    handlePatch store none now =
      ({ status := 500, body := errBody "Failed to update todo" }, store) :=
  ⟨rfl, rfl⟩

/-- C9: a create request whose `title` is present and truthy but not a
string throws when `.trim()` is called on it, so the handler answers with
the generic 500 "Failed to create todo" and persists nothing. -/
theorem post_nonstring_title_is_500 (store : Store)
    (fs : List (String × JSVal)) (newId : String) (now : Nat) (v : JSVal)
    (hf : lookupField fs "title" = some v) (ht : truthy v = true)
    (hs : ∀ s, v ≠ .str s) :
    handlePost store (some (.obj fs)) newId now =
      ({ status := 500, body := errBody "Failed to create todo" }, store) := by
  cases v with
  | str s => exact absurd rfl (hs s)
  | null => simp [truthy] at ht
  | bool b =>
      simp_all [handlePost, runPost, getField, truthyOpt, truthy, jsTrim]
  | num n =>
      simp_all [handlePost, runPost, getField, truthyOpt, truthy, jsTrim]
  | obj fs' =>
      simp_all [handlePost, runPost, getField, truthyOpt, truthy, jsTrim]
  | arr es =>
      simp_all [handlePost, runPost, getField, truthyOpt, truthy, jsTrim]

/-- Witness for C9 at a numeric title. -/
theorem post_nonstring_title_is_500_witness :
    handlePost [] (some (.obj [("title", .num 7)])) "id1" 5 =
      ({ status := 500, body := errBody "Failed to create todo" }, []) :=
  post_nonstring_title_is_500 [] [("title", .num 7)] "id1" 5 (.num 7) rfl rfl
    (fun s h => JSVal.noConfusion h)

/-- C2: a create request with a string title that is non-empty after
trimming stores the trimmed title, stores the description normalized
(absent when the field was omitted, sent as null, or trims to empty),
returns the created Task with status 201, and appends exactly one record. -/
theorem post_creates_trimmed (store : Store) (fs : List (String × JSVal))
    (newId : String) (now : Nat) (t : String) (desc : Option String)
    (htitle : lookupField fs "title" = some (.str t))
    (hnonempty : trimStr t ≠ "")
    (hfresh : ∀ u ∈ store, u.id ≠ newId)
    (hdesc : (lookupField fs "description" = none ∧ desc = none) ∨
             (lookupField fs "description" = some .null ∧ desc = none) ∨
             (∃ d, lookupField fs "description" = some (.str d) ∧
                   desc = if trimStr d = "" then none
                          else some (trimStr d))) :
    handlePost store (some (.obj fs)) newId now =
      ({ status := 201,
         body := todoToJson (createdTodo newId (trimStr t) desc now) },
       store ++ [createdTodo newId (trimStr t) desc now]) := by
  have ht : t ≠ "" := by
    rintro rfl
    exact hnonempty (by decide)
  have hany : store.any (fun u => u.id = newId) = false := by
    rw [List.any_eq_false]
    intro x hx
    simpa using hfresh x hx
  rcases hdesc with ⟨hdf, hdv⟩ | ⟨hdf, hdv⟩ | ⟨dstr, hdf, hdv⟩ <;>
    subst hdv <;>
    simp [handlePost, runPost, getField, htitle, truthyOpt, truthy, ht,
      jsTrim, hnonempty, postDescr, hdf, jsOptTrimOrNull, prismaCreate,
      hany, createdTodo]

/-- Witness for C2: title and description both carrying whitespace. -/
theorem post_creates_trimmed_witness :
    handlePost [] (some (.obj [("title", .str " A "),
                               ("description", .str "  ")])) "id1" 5 =
      ({ status := 201, body := todoToJson (createdTodo "id1" "A" none 5) },
       [createdTodo "id1" "A" none 5]) :=
  post_creates_trimmed [] [("title", .str " A "), ("description", .str "  ")]
    "id1" 5 " A " none rfl (by decide) (by simp)
    (Or.inr (Or.inr ⟨"  ", rfl, by decide⟩))

/-- C1: an update request with an id resolving to a stored record changes
exactly the fields present in the body: an absent `completed`/`title`/
`description` leaves the stored value untouched, a present `title` is
trimmed, a present `description` is normalized (null or trims-to-empty
stored as absent); `createdAt` and `id` are unchanged and `updatedAt`
becomes now. -/
theorem patch_frame (pre post : Store) (t : Todo)
    (fs : List (String × JSVal)) (now : Nat) (c : Option Bool)
    (ti : Option String) (d : Option (Option String))
    (hpre : ∀ u ∈ pre, u.id ≠ t.id)
    (hid : lookupField fs "id" = some (.str t.id))
    (hidne : t.id ≠ "")
    (hc : (c = none ∧ lookupField fs "completed" = none) ∨
          (∃ b, c = some b ∧ lookupField fs "completed" = some (.bool b)))
    (hti : (ti = none ∧ lookupField fs "title" = none) ∨
           (∃ s, lookupField fs "title" = some (.str s) ∧
                 ti = some (trimStr s)))
    (hd : (d = none ∧ lookupField fs "description" = none) ∨
          (d = some none ∧ lookupField fs "description" = some .null) ∨
          (∃ s, lookupField fs "description" = some (.str s) ∧
                d = some (if trimStr s = "" then none
                          else some (trimStr s)))) :
    handlePatch (pre ++ t :: post) (some (.obj fs)) now =
      ({ status := 200, body := todoToJson (patchedTodo t c ti d now) },
       pre ++ patchedTodo t c ti d now :: post) := by
  have hud : applyUpdate ⟨lookupField fs "completed", ti, d⟩ t now =
      .ok (patchedTodo t c ti d now) := by
    rcases hc with ⟨hcn, hcf⟩ | ⟨b, hcb, hcf⟩
    · subst hcn
      simp [applyUpdate, hcf, patchedTodo]
    · subst hcb
      simp [applyUpdate, hcf, patchedTodo]
  have hmatch : idMatches (.str t.id) t.id = true := by simp [idMatches]
  have hpre' : ∀ u ∈ pre, idMatches (.str t.id) u.id = false := by
    intro u hu
    simp [idMatches]
    exact Ne.symm (hpre u hu)
  have hupd := prismaUpdate_found pre post t (patchedTodo t c ti d now)
    (.str t.id) ⟨lookupField fs "completed", ti, d⟩ now hpre' hmatch hud
  rcases hti with ⟨htn, htf⟩ | ⟨s, htf, htv⟩ <;>
    rcases hd with ⟨hdn, hdf⟩ | ⟨hdn, hdf⟩ | ⟨ds, hdf, hdn⟩ <;>
      subst_vars <;>
      simp_all [handlePatch, runPatch, getField, truthyOpt, truthy,
        patchTitle, patchDescr, jsTrim, jsOptTrimOrNull, Except.map]

/-- Witness for C1: flipping only `completed` keeps title and description
and `createdAt`, and advances `updatedAt`. -/
theorem patch_frame_witness :
    handlePatch [{ id := "a", title := "T", description := some "D",
                   completed := false, createdAt := 1, updatedAt := 1 }]
        (some (.obj [("id", .str "a"), ("completed", .bool true)])) 9 =
      ({ status := 200,
         body := todoToJson { id := "a", title := "T",
                              description := some "D", completed := true,
                              createdAt := 1, updatedAt := 9 } },
       [{ id := "a", title := "T", description := some "D",
          completed := true, createdAt := 1, updatedAt := 9 }]) :=
  patch_frame []
    [] { id := "a", title := "T", description := some "D",
         completed := false, createdAt := 1, updatedAt := 1 }
    [("id", .str "a"), ("completed", .bool true)] 9 (some true) none none
    (by simp) rfl (by decide)
    (Or.inr ⟨true, rfl, rfl⟩) (Or.inl ⟨rfl, rfl⟩) (Or.inl ⟨rfl, rfl⟩)

/-- C4 (divergence exhibit): the update handler does not re-validate a
supplied title, so an update carrying a whitespace-only title stores the
empty string as the record's title — the stored-title invariant claimed by
the spec fails on the code. -/
theorem patch_stores_empty_title :
    handlePatch [{ id := "a", title := "T", description := some "D",
                   completed := false, createdAt := 1, updatedAt := 1 }]
        (some (.obj [("id", .str "a"), ("title", .str "   ")])) 9 =
      ({ status := 200,
         body := todoToJson { id := "a", title := "",
                              description := some "D", completed := false,
                              createdAt := 1, updatedAt := 9 } },
       [{ id := "a", title := "", description := some "D",
          completed := false, createdAt := 1, updatedAt := 9 }]) := by
  rfl

/-- C5: an update or delete aimed at an id matching no stored record ends
in the operation's generic 500 server-fault response (no distinct NotFound
status) and leaves the store unchanged. -/
theorem missing_target_is_500 (store : Store) (fs : List (String × JSVal))
    (now : Nat) (idv : JSVal) (i : String)
    (hid : lookupField fs "id" = some idv) (htr : truthy idv = true)
    (hupd : ∀ u ∈ store, idMatches idv u.id = false)
    (hdel : ∀ u ∈ store, u.id ≠ i) (hne : i ≠ "") :
    handlePatch store (some (.obj fs)) now =
      ({ status := 500, body := errBody "Failed to update todo" }, store) ∧
    handleDelete store (some i) =
      ({ status := 500, body := errBody "Failed to delete todo" }, store) := by
  constructor
  · cases htU : patchTitle (lookupField fs "title") with
    | error e =>
        simp [handlePatch, runPatch, getField, hid, truthyOpt, htr, htU]
    | ok tU =>
        cases hdU : patchDescr (lookupField fs "description") with
        | error e =>
            simp [handlePatch, runPatch, getField, hid, truthyOpt, htr,
              htU, hdU]
        | ok dU =>
            have hnf := prismaUpdate_not_found store idv
              ⟨lookupField fs "completed", tU, dU⟩ now hupd
            simp [handlePatch, runPatch, getField, hid, truthyOpt, htr,
              htU, hdU, hnf]
  · have hnf := prismaDelete_not_found store i hdel
    simp [handleDelete, runDelete, hne, hnf]

/-- Witness for C5: after deleting the only record, updating or deleting
the same id again yields the generic 500 for each operation. -/
theorem missing_target_is_500_witness :
    handlePatch [] (some (.obj [("id", .str "a"),
                                ("completed", .bool true)])) 9 =
      ({ status := 500, body := errBody "Failed to update todo" }, []) ∧
    handleDelete [] (some "a") =
      ({ status := 500, body := errBody "Failed to delete todo" }, []) :=
  missing_target_is_500 [] [("id", .str "a"), ("completed", .bool true)] 9
    (.str "a") "a" rfl (by decide) (by simp) (by simp) (by decide)

/-- C7: an update whose body lacks `id`, and a delete without the `id`
query parameter, answer 400 "Todo ID is required" with the store
untouched (the store layer is never reached). -/
theorem missing_id_is_400 (store : Store) (fs : List (String × JSVal))
    (now : Nat) (h : lookupField fs "id" = none) :
    handlePatch store (some (.obj fs)) now =
      ({ status := 400, body := errBody "Todo ID is required" }, store) ∧
    handleDelete store none =
      ({ status := 400, body := errBody "Todo ID is required" }, store) := by
  constructor
  · simp [handlePatch, runPatch, getField, h, truthyOpt]
  · rfl

/-- Witness for C7 on a body carrying only `completed` and the id-less
delete. -/
theorem missing_id_is_400_witness :
    handlePatch [] (some (.obj [("completed", .bool true)])) 9 =
      ({ status := 400, body := errBody "Todo ID is required" }, []) ∧
    handleDelete [] none =
      ({ status := 400, body := errBody "Todo ID is required" }, []) :=
  missing_id_is_400 [] [("completed", .bool true)] 9 rfl

/-- C6: the list operation returns status 200 with every stored Task (a
permutation of the store) ordered by `createdAt` descending; concretely,
creating A (time 1) then B (time 2) and listing yields B before A. -/
theorem get_sorted_desc (store : Store) :
    handleGet store =
      { status := 200,
        body := .arr ((findManyDesc store).map todoToJson) } ∧
    (findManyDesc store).Perm store ∧
    List.Sorted createdDesc (findManyDesc store) ∧
    (handleGet
        (handlePost
          (handlePost [] (some (.obj [("title", .str "A")])) "idA" 1).2
          (some (.obj [("title", .str "B")])) "idB" 2).2).body =
      .arr [todoToJson (createdTodo "idB" "B" none 2),
            todoToJson (createdTodo "idA" "A" none 1)] := by
  refine ⟨rfl, List.perm_insertionSort createdDesc store,
    List.sorted_insertionSort createdDesc store, ?_⟩
  rfl

/-- C10: each of the four handlers is a total function on its request
inputs, returning exactly one response whose status lies in the documented
set: 200/500 for list, 201/400/500 for create, 200/400/500 for update and
delete; every thrown error is absorbed into the handler's 500 branch. -/
theorem handlers_total (store : Store) (body? : Option JSVal)
    (newId : String) (now : Nat) (idParam : Option String) :
    ((handleGet store).status = 200 ∨ (handleGet store).status = 500) ∧
    ((handlePost store body? newId now).1.status = 201 ∨
     (handlePost store body? newId now).1.status = 400 ∨
     (handlePost store body? newId now).1.status = 500) ∧
    ((handlePatch store body? now).1.status = 200 ∨
     (handlePatch store body? now).1.status = 400 ∨
     (handlePatch store body? now).1.status = 500) ∧
    ((handleDelete store idParam).1.status = 200 ∨
     (handleDelete store idParam).1.status = 400 ∨
     (handleDelete store idParam).1.status = 500) := by
  refine ⟨Or.inl rfl, ?_, ?_, ?_⟩
  · cases hr : runPost store body? newId now with
    | error e => simp [handlePost, hr]
    | ok rs =>
        have := runPost_ok_status store body? newId now rs.1 rs.2
          (by rw [hr])
        rcases this with h | h <;> simp [handlePost, hr, h]
  · cases hr : runPatch store body? now with
    | error e => simp [handlePatch, hr]
    | ok rs =>
        have := runPatch_ok_status store body? now rs.1 rs.2 (by rw [hr])
        rcases this with h | h <;> simp [handlePatch, hr, h]
  · cases hr : runDelete store idParam with
    | error e => simp [handleDelete, hr]
    | ok rs =>
        have := runDelete_ok_status store idParam rs.1 rs.2 (by rw [hr])
        rcases this with h | h <;> simp [handleDelete, hr, h]

end TodoApp
